import Mathlib

/-!
Shallow embedding of the UnitFlow / MacBook Depot inventory-and-sales
application, restricted to the parts its specification makes claims about:
the dashboard aggregation functions (`calculateStats`,
`getTopModelsByProfit`, `getTopSuppliersByProfit`, `getTopCustomers`,
`getInventoryStats` from `src/components/Dashboard.tsx`), the client-side
sale creation and deletion handlers (`AddSale.tsx` `handleSubmit`,
`Sales.tsx` `handleDelete`), and the inventory-item deletion handler
(the inventory list component's `handleDelete`).

Modelling conventions:
* JavaScript numbers (`sale_price`, `purchase_cost`; screen sizes are
  strings in the schema) are modelled as rationals `Rat`, i.e. exact
  arithmetic.
* Date strings are modelled by the integer `new Date(s).getTime()`
  value in milliseconds; `Math.floor` of a millisecond difference divided
  by `86400000` becomes `Int.fdiv`.
* A JavaScript `Record<string, T>` accumulated with first-write insertion
  order (`Object.entries` enumeration order for non-index string keys) is
  modelled as an association list to which new keys are appended.
* `Array.prototype.sort` with comparator `(a, b) => b.profit - a.profit`
  (a stable sort, descending by profit) is modelled as `List.mergeSort`
  with the boolean relation `fun a b => decide (b.profit ≤ a.profit)`,
  which produces the same stable descending order.
* The backend calls issued by a handler are reified as a list of
  `Request` values; `applyRequest` gives the meaning of one successful
  request to the remote tables. A backend-generated primary key for an
  insert is modelled as an explicit argument of the handler.
-/

/-- Supplier row: only the fields the dashboard and handlers use. -/
structure Supplier where
  id : String
  supplier_name : String
deriving DecidableEq

/-- Inventory item row, restricted to the fields used by the embedded code.
`status` is the raw status string of the schema (`"in_stock"`, `"sold"`,
`"reserved"`, `"returned"`, `"doa"`, `"personal_use"`). -/
structure InventoryItem where
  id : String
  model_family : String
  screen_size : String
  purchase_cost : Rat
  purchase_date : Int
  status : String
  sold_date : Option Int
  suppliers : Option Supplier
deriving DecidableEq

/-- Customer row, restricted to the fields the dashboard uses. -/
structure Customer where
  id : String
  name : String
deriving DecidableEq

/-- A sale as the dashboard receives it: the row joined with its inventory
item and customer, either of which may be absent (`null` join result). -/
structure Sale where
  id : String
  item_id : String
  sale_price : Rat
  sale_date : Int
  inventory_items : Option InventoryItem
  customers : Option Customer
deriving DecidableEq

/-- Result record of `calculateStats`. -/
structure DashboardStats where
  totalRevenue : Rat
  totalProfit : Rat
  unitsSold : Nat
  avgMargin : Rat
deriving DecidableEq

/-- `Dashboard.tsx` `calculateStats`: total revenue is the sum of sale
prices over all sales; total profit sums `sale_price - purchase_cost`
only over sales whose joined inventory item is present; units sold is the
number of sales; average margin is `profit / revenue * 100` guarded by
`totalRevenue > 0`, else `0`. -/
def calculateStats (sales : List Sale) : DashboardStats :=
  let totalRevenue := sales.foldl (fun sum sale => sum + sale.sale_price) 0
  let totalProfit := sales.foldl (fun sum sale =>
    match sale.inventory_items with
    | some item => sum + (sale.sale_price - item.purchase_cost)
    | none => sum) 0
  let unitsSold := sales.length
  let avgMargin := if totalRevenue > 0 then totalProfit / totalRevenue * 100 else 0
  ⟨totalRevenue, totalProfit, unitsSold, avgMargin⟩

/-- Formalisation of the spec phrase "sum of cost_i for items present":
the sum of purchase costs over the sales whose joined item is present. -/
def presentCosts (sales : List Sale) : Rat :=
  sales.foldl (fun sum sale =>
    match sale.inventory_items with
    | some item => sum + item.purchase_cost
    | none => sum) 0

/-- Sum of the sale prices of the sales whose joined item is missing:
the part of total revenue that contributes no profit term. -/
def missingItemRevenue (sales : List Sale) : Rat :=
  sales.foldl (fun sum sale =>
    match sale.inventory_items with
    | some _ => sum
    | none => sum + sale.sale_price) 0

/-- Per-sale profit contribution (0 when the joined item is missing). -/
def profitContrib (sale : Sale) : Rat :=
  match sale.inventory_items with
  | some item => sale.sale_price - item.purchase_cost
  | none => 0

/-- Per-sale purchase-cost contribution (0 when the item is missing). -/
def costContrib (sale : Sale) : Rat :=
  match sale.inventory_items with
  | some item => item.purchase_cost
  | none => 0

/-- Per-sale missing-item revenue contribution. -/
def missingContrib (sale : Sale) : Rat :=
  match sale.inventory_items with
  | some _ => 0
  | none => sale.sale_price

/-- Insertion-ordered record update, modelling
`if (!rec[k]) rec[k] = init; mutate rec[k]`: an existing key is updated in
place, a new key is appended at the end. -/
def updateAssoc (l : List (String × α)) (k : String) (init : α) (f : α → α) :
    List (String × α) :=
  match l with
  | [] => [(k, f init)]
  | (k₀, v) :: rest =>
    if k₀ = k then (k₀, f v) :: rest else (k₀, v) :: updateAssoc rest k init f

/-- Lookup in an insertion-ordered association list (`rec[k]`). -/
def lookupA (l : List (String × α)) (k : String) : Option α :=
  match l with
  | [] => none
  | (k₀, v) :: rest => if k₀ = k then some v else lookupA rest k

/-- Per-model accumulator record of `getTopModelsByProfit`. -/
structure ModelStats where
  units : Nat
  profit : Rat
  margin : Rat
  revenue : Rat
deriving DecidableEq

/-- One step of the `sales.forEach` loop of `getTopModelsByProfit`: sales
with a missing joined item are skipped; otherwise the group keyed by
`model_family ++ " " ++ screen_size ++ "\""` accumulates one unit, the
sale's profit, and the sale's price. -/
def addModelSale (modelStats : List (String × ModelStats)) (sale : Sale) :
    List (String × ModelStats) :=
  match sale.inventory_items with
  | none => modelStats
  | some item =>
    let model := item.model_family ++ " " ++ item.screen_size ++ "\""
    let profit := sale.sale_price - item.purchase_cost
    updateAssoc modelStats model ⟨0, 0, 0, 0⟩ (fun s =>
      { s with units := s.units + 1, profit := s.profit + profit,
               revenue := s.revenue + sale.sale_price })

/-- The accumulated per-model record of `getTopModelsByProfit`. -/
def modelStatsList (sales : List Sale) : List (String × ModelStats) :=
  sales.foldl addModelSale []

/-- `Dashboard.tsx` `getTopModelsByProfit`: accumulate per-model stats,
fill in each group's margin (zero-guarded), sort descending by profit
(stable), take the first 5. -/
def getTopModelsByProfit (sales : List Sale) : List (String × ModelStats) :=
  ((((modelStatsList sales).map (fun kv => (kv.1,
      { kv.2 with
        margin := if kv.2.revenue > 0 then kv.2.profit / kv.2.revenue * 100 else 0 }))).mergeSort
    (fun a b => decide (b.2.profit ≤ a.2.profit))).take 5)

/-- Per-supplier accumulator record of `getTopSuppliersByProfit`. -/
structure SupplierStats where
  units : Nat
  profit : Rat
  margin : Rat
  revenue : Rat
  avgDays : Int
  totalDays : Int
deriving DecidableEq

/-- One step of the `sales.forEach` loop of `getTopSuppliersByProfit`:
skipped unless both the joined item and its joined supplier are present;
the group is keyed by the supplier's name. -/
def addSupplierSale (supplierStats : List (String × SupplierStats)) (sale : Sale) :
    List (String × SupplierStats) :=
  match sale.inventory_items with
  | none => supplierStats
  | some item =>
    match item.suppliers with
    | none => supplierStats
    | some sup =>
      let supplierName := sup.supplier_name
      let profit := sale.sale_price - item.purchase_cost
      let daysToSell := Int.fdiv (sale.sale_date - item.purchase_date) 86400000
      updateAssoc supplierStats supplierName ⟨0, 0, 0, 0, 0, 0⟩ (fun s =>
        { s with units := s.units + 1, profit := s.profit + profit,
                 revenue := s.revenue + sale.sale_price,
                 totalDays := s.totalDays + daysToSell })

/-- The accumulated per-supplier record of `getTopSuppliersByProfit`. -/
def supplierStatsList (sales : List Sale) : List (String × SupplierStats) :=
  sales.foldl addSupplierSale []

/-- `Dashboard.tsx` `getTopSuppliersByProfit`: accumulate per-supplier
stats, fill in margin (zero-guarded) and average days-to-sell
(`Math.round`, guarded by `units > 0`), sort descending by profit, take 5. -/
def getTopSuppliersByProfit (sales : List Sale) : List (String × SupplierStats) :=
  ((((supplierStatsList sales).map (fun kv => (kv.1,
      { kv.2 with
        margin := if kv.2.revenue > 0 then kv.2.profit / kv.2.revenue * 100 else 0,
        avgDays := if kv.2.units > 0 then round ((kv.2.totalDays : Rat) / (kv.2.units : Rat)) else 0 }))).mergeSort
    (fun a b => decide (b.2.profit ≤ a.2.profit))).take 5)

/-- Per-customer accumulator record of `getTopCustomers`. -/
structure CustomerStats where
  purchases : Nat
  spent : Rat
  profit : Rat
  lastPurchase : Int
deriving DecidableEq

/-- One step of the `sales.forEach` loop of `getTopCustomers`: sales with
no joined customer are skipped entirely; the profit term is
`sale_price - purchase_cost` if the joined item is present, else 0; the
group is keyed by the customer's name, with `lastPurchase` initialised to
the creating sale's date and bumped on strictly later sale dates. -/
def addCustomerSale (customerStats : List (String × CustomerStats)) (sale : Sale) :
    List (String × CustomerStats) :=
  match sale.customers with
  | none => customerStats
  | some c =>
    let profit :=
      match sale.inventory_items with
      | some item => sale.sale_price - item.purchase_cost
      | none => 0
    updateAssoc customerStats c.name ⟨0, 0, 0, sale.sale_date⟩ (fun s =>
      { purchases := s.purchases + 1, spent := s.spent + sale.sale_price,
        profit := s.profit + profit,
        lastPurchase := if sale.sale_date > s.lastPurchase then sale.sale_date else s.lastPurchase })

/-- The accumulated per-customer record of `getTopCustomers`. -/
def customerStatsList (sales : List Sale) : List (String × CustomerStats) :=
  sales.foldl addCustomerSale []

/-- `Dashboard.tsx` `getTopCustomers`: accumulate per-customer stats, sort
descending by profit (stable), take the first 5. -/
def getTopCustomers (sales : List Sale) : List (String × CustomerStats) :=
  (((customerStatsList sales).mergeSort
    (fun a b => decide (b.2.profit ≤ a.2.profit))).take 5)

/-- The four aging-bucket counters of `getInventoryStats`. -/
structure AgingBuckets where
  range0to30 : Nat
  range31to60 : Nat
  range61to90 : Nat
  range90plus : Nat
deriving DecidableEq

/-- Per-model in-stock count/value record of `getInventoryStats`. -/
structure ModelCount where
  count : Nat
  value : Rat
deriving DecidableEq

/-- Result record of `getInventoryStats`. -/
structure InventoryOverview where
  totalUnits : Nat
  totalValue : Rat
  agingBuckets : AgingBuckets
  modelCounts : List (String × ModelCount)
deriving DecidableEq

/-- `Math.floor((now - new Date(purchase_date).getTime()) / 86400000)`:
the whole days elapsed since an item's purchase date. -/
def ageInDays (now : Int) (item : InventoryItem) : Int :=
  Int.fdiv (now - item.purchase_date) 86400000

/-- One step of the aging `forEach` of `getInventoryStats`: the if/else-if
chain on the item's age in days. -/
def addToAgingBucket (now : Int) (b : AgingBuckets) (item : InventoryItem) :
    AgingBuckets :=
  let days := ageInDays now item
  if days ≤ 30 then { b with range0to30 := b.range0to30 + 1 }
  else if days ≤ 60 then { b with range31to60 := b.range31to60 + 1 }
  else if days ≤ 90 then { b with range61to90 := b.range61to90 + 1 }
  else { b with range90plus := b.range90plus + 1 }

/-- The bucket an in-stock item falls into, as an index 0..3, read off the
same if/else-if chain as `addToAgingBucket`. -/
def bucketIndex (now : Int) (item : InventoryItem) : Fin 4 :=
  let days := ageInDays now item
  if days ≤ 30 then 0
  else if days ≤ 60 then 1
  else if days ≤ 90 then 2
  else 3

/-- One step of the model-count `forEach` of `getInventoryStats`. -/
def addModelCount (mc : List (String × ModelCount)) (item : InventoryItem) :
    List (String × ModelCount) :=
  let model := item.model_family ++ " " ++ item.screen_size ++ "\""
  updateAssoc mc model ⟨0, 0⟩ (fun s =>
    { count := s.count + 1, value := s.value + item.purchase_cost })

/-- `Dashboard.tsx` `getInventoryStats`: restrict to in-stock items, total
their purchase cost, fill the four aging buckets, and group by model into
count/value pairs sorted descending by count (no truncation). -/
def getInventoryStats (now : Int) (inventory : List InventoryItem) :
    InventoryOverview :=
  let inStock := inventory.filter (fun item => item.status == "in_stock")
  let totalValue := inStock.foldl (fun sum item => sum + item.purchase_cost) 0
  let agingBuckets := inStock.foldl (addToAgingBucket now) ⟨0, 0, 0, 0⟩
  let modelCounts := inStock.foldl addModelCount []
  ⟨inStock.length, totalValue, agingBuckets,
    modelCounts.mergeSort (fun a b => decide (b.2.count ≤ a.2.count))⟩

/-- The add-sale form state relevant to `AddSale.tsx` `handleSubmit`:
`item_id` is absent (`none`) or the selected id; an empty string and a
price of 0 are the falsy values the validation guard rejects. -/
structure SaleForm where
  item_id : Option String
  sale_price : Rat
  sale_date : Int
  customer_id : Option String
deriving DecidableEq

/-- A stored sale row (no joins), as inserted into the `sales` table. -/
structure SaleRow where
  id : String
  item_id : String
  sale_price : Rat
  sale_date : Int
  customer_id : Option String
deriving DecidableEq

/-- A backend call issued by a client handler. -/
inductive Request
  | insertSale (row : SaleRow)
  | updateItem (id : String) (status : String) (sold_date : Option Int)
  | deleteSaleRow (id : String)
  | deleteItemRow (id : String)
deriving DecidableEq

/-- `AddSale.tsx` `handleSubmit`: after the falsy-field validation guard
(`!formData.item_id || !formData.sale_price`), insert the sale row and
then update the referenced item to status `"sold"` with the current time
as sold date — two sequential writes. `newId` models the
backend-generated primary key of the inserted row. -/
def addSaleRequests (form : SaleForm) (newId : String) (now : Int) :
    List Request :=
  match form.item_id with
  | none => []
  | some iid =>
    if iid = "" then []
    else if form.sale_price = 0 then []
    else
      [Request.insertSale ⟨newId, iid, form.sale_price, form.sale_date, form.customer_id⟩,
       Request.updateItem iid "sold" (some now)]

/-- `Sales.tsx` `handleDelete`: after the user confirms, delete the sale
row and then update the linked item back to status `"in_stock"` with a
null sold date — two sequential writes. -/
def salesDeleteRequests (sale : SaleRow) (confirmDelete : Bool) : List Request :=
  if confirmDelete then
    [Request.deleteSaleRow sale.id,
     Request.updateItem sale.item_id "in_stock" none]
  else []

/-- The inventory list component's `handleDelete`: a sold item is refused
before the confirmation dialog and no request is issued; otherwise, after
confirmation, a single delete request is issued. -/
def inventoryDeleteRequests (item : InventoryItem) (confirmDelete : Bool) :
    List Request :=
  if item.status = "sold" then []
  else if confirmDelete then [Request.deleteItemRow item.id]
  else []

/-- The two backend tables the handlers touch. -/
structure Db where
  inventory_items : List InventoryItem
  sales : List SaleRow
deriving DecidableEq

/-- Meaning of one successful backend request: insert appends the row;
`update ... .eq('id', x)` rewrites every row with that id; `delete`
`.eq('id', x)` removes every row with that id. -/
def applyRequest (db : Db) : Request → Db
  | Request.insertSale row => { db with sales := db.sales ++ [row] }
  | Request.updateItem iid status sd =>
      { db with inventory_items := db.inventory_items.map (fun item =>
          if item.id = iid then { item with status := status, sold_date := sd } else item) }
  | Request.deleteSaleRow sid =>
      { db with sales := db.sales.filter (fun s => !(s.id == sid)) }
  | Request.deleteItemRow iid =>
      { db with inventory_items := db.inventory_items.filter (fun item => !(item.id == iid)) }

/-- Apply a handler's requests in order, all succeeding. -/
def applyAll (db : Db) (reqs : List Request) : Db :=
  reqs.foldl applyRequest db

/-- The client-side operations of the repository that write to the
`inventory_items` or `sales` tables through the modelled handlers. -/
inductive ClientOp
  | addSale (form : SaleForm) (newId : String) (now : Int)
  | deleteSale (sale : SaleRow) (confirmDelete : Bool)
  | deleteItem (item : InventoryItem) (confirmDelete : Bool)

/-- The backend requests a client operation issues. -/
def clientRequests : ClientOp → List Request
  | ClientOp.addSale form newId now => addSaleRequests form newId now
  | ClientOp.deleteSale sale c => salesDeleteRequests sale c
  | ClientOp.deleteItem item c => inventoryDeleteRequests item c

/-- The accumulated group of a customer name in the per-customer record,
with a zero record when the name has no group. -/
def custGroup (sales : List Sale) (nm : String) : CustomerStats :=
  (lookupA (customerStatsList sales) nm).getD ⟨0, 0, 0, 0⟩

/-- The accumulated group of a supplier name in the per-supplier record,
with a zero record when the name has no group. -/
def suppGroup (sales : List Sale) (nm : String) : SupplierStats :=
  (lookupA (supplierStatsList sales) nm).getD ⟨0, 0, 0, 0, 0, 0⟩

/-- Rewrite the customer record of a sale (if any) through `f`, leaving
every other field of the sale unchanged. -/
def mapSaleCustomer (f : Customer → Customer) (s : Sale) : Sale :=
  { s with customers := s.customers.map f }

/-- Rewrite the supplier record joined to a sale's item (if any) through
`g`, leaving every other field unchanged. -/
def mapSaleSupplier (g : Supplier → Supplier) (s : Sale) : Sale :=
  { s with inventory_items := s.inventory_items.map (fun item =>
      { item with suppliers := item.suppliers.map g }) }

lemma foldl_add_eq_sum (f : Sale → Rat) (l : List Sale) (a : Rat) :
    l.foldl (fun s x => s + f x) a = a + (l.map f).sum := by
  induction l generalizing a with
  | nil => simp
  | cons x t ih => simp [ih, add_assoc]

lemma totalRevenue_eq_sum (sales : List Sale) :
    (calculateStats sales).totalRevenue = (sales.map Sale.sale_price).sum := by
  show sales.foldl (fun sum sale => sum + sale.sale_price) 0
    = (sales.map Sale.sale_price).sum
  rw [foldl_add_eq_sum Sale.sale_price, zero_add]

lemma totalProfit_eq_sum (sales : List Sale) :
    (calculateStats sales).totalProfit = (sales.map profitContrib).sum := by
  show sales.foldl (fun sum sale =>
      match sale.inventory_items with
      | some item => sum + (sale.sale_price - item.purchase_cost)
      | none => sum) 0
    = (sales.map profitContrib).sum
  rw [List.foldl_ext _ (fun s x => s + profitContrib x) 0
    (fun a x _ => by cases h : x.inventory_items <;> simp [profitContrib, h])]
  rw [foldl_add_eq_sum, zero_add]

lemma presentCosts_eq_sum (sales : List Sale) :
    presentCosts sales = (sales.map costContrib).sum := by
  rw [presentCosts,
    List.foldl_ext _ (fun s x => s + costContrib x) 0
      (fun a x _ => by cases h : x.inventory_items <;> simp [costContrib, h])]
  rw [foldl_add_eq_sum, zero_add]

lemma missingItemRevenue_eq_sum (sales : List Sale) :
    missingItemRevenue sales = (sales.map missingContrib).sum := by
  rw [missingItemRevenue,
    List.foldl_ext _ (fun s x => s + missingContrib x) 0
      (fun a x _ => by cases h : x.inventory_items <;> simp [missingContrib, h])]
  rw [foldl_add_eq_sum, zero_add]

/-- C1 (counterexample): for a single sale of price 100 whose joined item
is missing, total profit is 0 but total revenue minus the present-item
costs is 100, so the claimed identity fails. -/
theorem calculateStats_profit_identity_cex :
    ¬ ((calculateStats [⟨"s1", "i1", 100, 0, none, none⟩]).totalProfit
        = (calculateStats [⟨"s1", "i1", 100, 0, none, none⟩]).totalRevenue
          - presentCosts [⟨"s1", "i1", 100, 0, none, none⟩]) := by
  rw [totalProfit_eq_sum, totalRevenue_eq_sum, presentCosts_eq_sum]
  simp [profitContrib, costContrib]

/-- C1 (amended): for every list of sales, total profit equals total
revenue minus the purchase costs of present items minus the sale prices of
the sales whose joined item is missing. -/
theorem calculateStats_profit_identity (sales : List Sale) :
    (calculateStats sales).totalProfit
      = (calculateStats sales).totalRevenue - presentCosts sales
        - missingItemRevenue sales := by
  rw [totalProfit_eq_sum, totalRevenue_eq_sum, presentCosts_eq_sum,
    missingItemRevenue_eq_sum]
  induction sales with
  | nil => simp
  | cons s t ih =>
    simp only [List.map_cons, List.sum_cons]
    rw [ih]
    cases h : s.inventory_items <;>
      simp [profitContrib, costContrib, missingContrib, h] <;> ring

/-- C6: whenever the total revenue computed by `calculateStats` is zero,
the average margin it returns is zero. -/
theorem calculateStats_avgMargin_zero_of_revenue_zero (sales : List Sale)
    (h : (calculateStats sales).totalRevenue = 0) :
    (calculateStats sales).avgMargin = 0 := by
  have hrev : sales.foldl (fun sum sale => sum + sale.sale_price) 0 = 0 := h
  show (if sales.foldl (fun sum sale => sum + sale.sale_price) 0 > 0 then _ else 0) = 0
  rw [hrev]
  norm_num

/-- C6 (witness): on the empty sales list the revenue is zero and the
average margin is zero. -/
theorem calculateStats_avgMargin_zero_of_revenue_zero_witness :
    (calculateStats []).totalRevenue = 0 ∧ (calculateStats []).avgMargin = 0 :=
  ⟨by simp [calculateStats],
    calculateStats_avgMargin_zero_of_revenue_zero [] (by simp [calculateStats])⟩

/-- C9: the margin guard is the strict comparison `totalRevenue > 0`, so
for every sales list whose total revenue is less than or equal to zero
(including strictly negative revenue) the average margin is zero; the
guarded division branch is not taken there. -/
theorem calculateStats_avgMargin_zero_of_revenue_nonpos (sales : List Sale)
    (h : (calculateStats sales).totalRevenue ≤ 0) :
    (calculateStats sales).avgMargin = 0 := by
  have hrev : sales.foldl (fun sum sale => sum + sale.sale_price) 0 ≤ 0 := h
  show (if sales.foldl (fun sum sale => sum + sale.sale_price) 0 > 0 then _ else 0) = 0
  rw [if_neg (not_lt_of_le hrev)]

/-- C9 (witness): a single sale of price -5 gives revenue -5 ≤ 0 and
average margin zero. -/
theorem calculateStats_avgMargin_zero_of_revenue_nonpos_witness :
    (calculateStats [⟨"s1", "i1", -5, 0, none, none⟩]).totalRevenue ≤ 0 ∧
      (calculateStats [⟨"s1", "i1", -5, 0, none, none⟩]).avgMargin = 0 :=
  ⟨by rw [totalRevenue_eq_sum]; simp,
    calculateStats_avgMargin_zero_of_revenue_nonpos
      [⟨"s1", "i1", -5, 0, none, none⟩]
      (by rw [totalRevenue_eq_sum]; simp)⟩

/-- C7: for the two-sale example (price 1000 with item cost 700, price 500
with item cost 500) the summary stats are revenue 1500, profit 300, and
average margin 20 percent. -/
theorem calculateStats_example :
    (calculateStats
      [⟨"s1", "i1", 1000, 0, some ⟨"i1", "m", "13", 700, 0, "sold", none, none⟩, none⟩,
       ⟨"s2", "i2", 500, 0, some ⟨"i2", "m", "13", 500, 0, "sold", none, none⟩, none⟩]).totalRevenue = 1500 ∧
    (calculateStats
      [⟨"s1", "i1", 1000, 0, some ⟨"i1", "m", "13", 700, 0, "sold", none, none⟩, none⟩,
       ⟨"s2", "i2", 500, 0, some ⟨"i2", "m", "13", 500, 0, "sold", none, none⟩, none⟩]).totalProfit = 300 ∧
    (calculateStats
      [⟨"s1", "i1", 1000, 0, some ⟨"i1", "m", "13", 700, 0, "sold", none, none⟩, none⟩,
       ⟨"s2", "i2", 500, 0, some ⟨"i2", "m", "13", 500, 0, "sold", none, none⟩, none⟩]).avgMargin = 20 := by
  refine ⟨?_, ?_, ?_⟩
  · rw [totalRevenue_eq_sum]; simp; norm_num
  · rw [totalProfit_eq_sum]; simp [profitContrib]; norm_num
  · show (if (0 : Rat) + 1000 + 500 > 0 then
        ((0 : Rat) + (1000 - 700) + (500 - 500)) / ((0 : Rat) + 1000 + 500) * 100
      else 0) = 20
    norm_num

lemma pairwise_profit_take {α : Type} (pro : α → Rat) (l : List α) (n : Nat) :
    ((l.mergeSort (fun a b => decide (pro b ≤ pro a))).take n).Pairwise
      (fun a b => pro b ≤ pro a) := by
  have hs : (l.mergeSort (fun a b => decide (pro b ≤ pro a))).Pairwise
      (fun a b => (decide (pro b ≤ pro a)) = true) :=
    List.sorted_mergeSort
      (fun a b c hab hbc => by
        simp only [decide_eq_true_eq] at hab hbc ⊢
        exact le_trans hbc hab)
      (fun a b => by
        simp only [Bool.or_eq_true, decide_eq_true_eq]
        exact le_total (pro b) (pro a))
      l
  have hp : (l.mergeSort (fun a b => decide (pro b ≤ pro a))).Pairwise
      (fun a b => pro b ≤ pro a) :=
    hs.imp (fun hab => by simpa using hab)
  exact List.Pairwise.sublist (List.take_sublist n _) hp

lemma length_take_le_five {α : Type} (l : List α) : (l.take 5).length ≤ 5 := by
  rw [List.length_take]
  exact Nat.min_le_left _ _

/-- C3: each of the three top-N grouping functions returns at most 5
entries, and the per-group profit values of its result are in
non-increasing order. -/
theorem topN_length_le_five_and_sorted (sales : List Sale) :
    (getTopModelsByProfit sales).length ≤ 5 ∧
      (getTopModelsByProfit sales).Pairwise (fun a b => b.2.profit ≤ a.2.profit) ∧
      (getTopSuppliersByProfit sales).length ≤ 5 ∧
      (getTopSuppliersByProfit sales).Pairwise (fun a b => b.2.profit ≤ a.2.profit) ∧
      (getTopCustomers sales).length ≤ 5 ∧
      (getTopCustomers sales).Pairwise (fun a b => b.2.profit ≤ a.2.profit) := by
  refine ⟨length_take_le_five _, ?_, length_take_le_five _, ?_, length_take_le_five _, ?_⟩
  · exact pairwise_profit_take (fun kv : String × ModelStats => kv.2.profit) _ 5
  · exact pairwise_profit_take (fun kv : String × SupplierStats => kv.2.profit) _ 5
  · exact pairwise_profit_take (fun kv : String × CustomerStats => kv.2.profit) _ 5

lemma foldl_agingBucket (now : Int) (l : List InventoryItem) (b : AgingBuckets) :
    l.foldl (addToAgingBucket now) b =
      ⟨b.range0to30 + l.countP (fun it => decide (ageInDays now it ≤ 30)),
       b.range31to60 + l.countP (fun it =>
         decide (¬ ageInDays now it ≤ 30 ∧ ageInDays now it ≤ 60)),
       b.range61to90 + l.countP (fun it =>
         decide (¬ ageInDays now it ≤ 60 ∧ ageInDays now it ≤ 90)),
       b.range90plus + l.countP (fun it => decide (¬ ageInDays now it ≤ 90))⟩ := by
  induction l generalizing b with
  | nil => simp
  | cons it t ih =>
    rw [List.foldl_cons, ih]
    simp only [List.countP_cons]
    by_cases h1 : ageInDays now it ≤ 30
    · have h60 : ageInDays now it ≤ 60 := by omega
      have h90 : ageInDays now it ≤ 90 := by omega
      simp [addToAgingBucket, h1, h60, h90] <;> omega
    · by_cases h2 : ageInDays now it ≤ 60
      · have h90 : ageInDays now it ≤ 90 := by omega
        simp [addToAgingBucket, h1, h2, h90] <;> omega
      · by_cases h3 : ageInDays now it ≤ 90
        · simp [addToAgingBucket, h1, h2, h3] <;> omega
        · simp [addToAgingBucket, h1, h2, h3] <;> omega

lemma foldl_agingBucket_total (now : Int) (l : List InventoryItem) (b : AgingBuckets) :
    (l.foldl (addToAgingBucket now) b).range0to30
        + (l.foldl (addToAgingBucket now) b).range31to60
        + (l.foldl (addToAgingBucket now) b).range61to90
        + (l.foldl (addToAgingBucket now) b).range90plus
      = b.range0to30 + b.range31to60 + b.range61to90 + b.range90plus + l.length := by
  induction l generalizing b with
  | nil => simp
  | cons it t ih =>
    rw [List.foldl_cons, ih]
    simp only [addToAgingBucket]
    split_ifs <;> simp <;> omega

/-- C4: the four aging buckets of the inventory snapshot partition the
in-stock items: each bucket counts exactly the in-stock items whose age in
days falls in its range (the ranges are mutually exclusive and exhaustive
by construction of the if/else-if chain), and the bucket counts sum to the
number of in-stock items, which is also the reported unit total. -/
theorem getInventoryStats_aging_partition (now : Int) (inventory : List InventoryItem) :
    (getInventoryStats now inventory).agingBuckets.range0to30
        = (inventory.filter (fun item => item.status == "in_stock")).countP
            (fun it => decide (ageInDays now it ≤ 30)) ∧
      (getInventoryStats now inventory).agingBuckets.range31to60
        = (inventory.filter (fun item => item.status == "in_stock")).countP
            (fun it => decide (¬ ageInDays now it ≤ 30 ∧ ageInDays now it ≤ 60)) ∧
      (getInventoryStats now inventory).agingBuckets.range61to90
        = (inventory.filter (fun item => item.status == "in_stock")).countP
            (fun it => decide (¬ ageInDays now it ≤ 60 ∧ ageInDays now it ≤ 90)) ∧
      (getInventoryStats now inventory).agingBuckets.range90plus
        = (inventory.filter (fun item => item.status == "in_stock")).countP
            (fun it => decide (¬ ageInDays now it ≤ 90)) ∧
      (getInventoryStats now inventory).agingBuckets.range0to30
          + (getInventoryStats now inventory).agingBuckets.range31to60
          + (getInventoryStats now inventory).agingBuckets.range61to90
          + (getInventoryStats now inventory).agingBuckets.range90plus
        = (inventory.filter (fun item => item.status == "in_stock")).length ∧
      (getInventoryStats now inventory).totalUnits
        = (inventory.filter (fun item => item.status == "in_stock")).length := by
  have hb : (getInventoryStats now inventory).agingBuckets
      = (inventory.filter (fun item => item.status == "in_stock")).foldl
          (addToAgingBucket now) ⟨0, 0, 0, 0⟩ := rfl
  have hsum := foldl_agingBucket_total now
    (inventory.filter (fun item => item.status == "in_stock")) ⟨0, 0, 0, 0⟩
  rw [hb, foldl_agingBucket]
  refine ⟨by simp, by simp, by simp, by simp, ?_, rfl⟩
  rw [foldl_agingBucket] at hsum
  simpa using hsum

/-- C5: the client-side inventory delete handler refuses to delete a sold
item: it issues no backend request at all, and the backend state is
unchanged; for an item of any other status the deletion proceeds after
user confirmation, as a single delete request for that item's id (and no
request at all without confirmation). -/
theorem inventory_delete_sold_guard (db : Db) (item : InventoryItem)
    (confirmDelete : Bool) :
    (item.status = "sold" →
      inventoryDeleteRequests item confirmDelete = [] ∧
        applyAll db (inventoryDeleteRequests item confirmDelete) = db) ∧
      (item.status ≠ "sold" →
        inventoryDeleteRequests item true = [Request.deleteItemRow item.id] ∧
          inventoryDeleteRequests item false = []) := by
  constructor
  · intro h
    constructor
    · simp [inventoryDeleteRequests, h]
    · simp [inventoryDeleteRequests, h, applyAll]
  · intro h
    constructor
    · simp [inventoryDeleteRequests, h]
    · simp [inventoryDeleteRequests, h]

/-- C5 (witness): a concrete sold item is refused (no request, database
untouched) while a concrete in-stock item produces exactly one delete
request after confirmation. -/
theorem inventory_delete_sold_guard_witness :
    (inventoryDeleteRequests ⟨"i1", "m", "13", 700, 0, "sold", some 5, none⟩ true = [] ∧
      applyAll ⟨[⟨"i1", "m", "13", 700, 0, "sold", some 5, none⟩], []⟩
        (inventoryDeleteRequests ⟨"i1", "m", "13", 700, 0, "sold", some 5, none⟩ true)
        = ⟨[⟨"i1", "m", "13", 700, 0, "sold", some 5, none⟩], []⟩) ∧
    (inventoryDeleteRequests ⟨"i2", "m", "13", 700, 0, "in_stock", none, none⟩ true
        = [Request.deleteItemRow "i2"] ∧
      inventoryDeleteRequests ⟨"i2", "m", "13", 700, 0, "in_stock", none, none⟩ false = []) :=
  ⟨(inventory_delete_sold_guard ⟨[⟨"i1", "m", "13", 700, 0, "sold", some 5, none⟩], []⟩
      ⟨"i1", "m", "13", 700, 0, "sold", some 5, none⟩ true).1 rfl,
    (inventory_delete_sold_guard ⟨[⟨"i1", "m", "13", 700, 0, "sold", some 5, none⟩], []⟩
      ⟨"i2", "m", "13", 700, 0, "in_stock", none, none⟩ true).2 (by simp)⟩

/-- C2: an item's status is set to "sold" (with a sold date) exactly by
the add-sale flow, which issues its two writes in sequence; none of the
other modelled write paths (sale deletion, inventory deletion) ever issues
a sold-status update. Deleting a sale issues two sequential writes, and
when both succeed the linked item is back to "in_stock" with a null sold
date and the sale row is gone. -/
theorem sale_status_lifecycle (db : Db) (form : SaleForm) (iid newId : String)
    (now : Int) (sale : SaleRow) (cfm : Bool) (rid : String) (d : Option Int)
    (item : InventoryItem) (srow : SaleRow) :
    (form.item_id = some iid → iid ≠ "" → form.sale_price ≠ 0 →
      addSaleRequests form newId now
          = [Request.insertSale ⟨newId, iid, form.sale_price, form.sale_date, form.customer_id⟩,
             Request.updateItem iid "sold" (some now)] ∧
        (item ∈ (applyAll db (addSaleRequests form newId now)).inventory_items →
          item.id = iid → item.status = "sold" ∧ item.sold_date = some now)) ∧
      (Request.updateItem rid "sold" d ∈ addSaleRequests form newId now →
        form.item_id = some rid ∧ d = some now) ∧
      Request.updateItem rid "sold" d ∉ salesDeleteRequests sale cfm ∧
      Request.updateItem rid "sold" d ∉ inventoryDeleteRequests item cfm ∧
      salesDeleteRequests sale true
          = [Request.deleteSaleRow sale.id, Request.updateItem sale.item_id "in_stock" none] ∧
      (item ∈ (applyAll db (salesDeleteRequests sale true)).inventory_items →
        item.id = sale.item_id → item.status = "in_stock" ∧ item.sold_date = none) ∧
      (srow ∈ (applyAll db (salesDeleteRequests sale true)).sales → srow.id ≠ sale.id) := by
  refine ⟨?_, ?_, ?_, ?_, rfl, ?_, ?_⟩
  · intro hf hne hp
    have hreq : addSaleRequests form newId now
        = [Request.insertSale ⟨newId, iid, form.sale_price, form.sale_date, form.customer_id⟩,
           Request.updateItem iid "sold" (some now)] := by
      simp [addSaleRequests, hf, hne, hp]
    refine ⟨hreq, ?_⟩
    intro hmem hid
    rw [hreq] at hmem
    simp only [applyAll, List.foldl_cons, List.foldl_nil, applyRequest] at hmem
    obtain ⟨it₀, hit₀, rfl⟩ := List.mem_map.1 hmem
    by_cases hcase : it₀.id = iid
    · rw [if_pos hcase]
      exact ⟨rfl, rfl⟩
    · rw [if_neg hcase] at hid
      exact absurd hid hcase
  · intro hmem
    cases hf : form.item_id with
    | none => simp [addSaleRequests, hf] at hmem
    | some i =>
      have hred : addSaleRequests form newId now
          = if i = "" then []
            else if form.sale_price = 0 then []
            else [Request.insertSale ⟨newId, i, form.sale_price, form.sale_date, form.customer_id⟩,
                  Request.updateItem i "sold" (some now)] := by
        simp [addSaleRequests, hf]
      rw [hred] at hmem
      by_cases h1 : i = ""
      · rw [if_pos h1] at hmem; simp at hmem
      · rw [if_neg h1] at hmem
        by_cases h2 : form.sale_price = 0
        · rw [if_pos h2] at hmem; simp at hmem
        · rw [if_neg h2] at hmem
          simp only [List.mem_cons, List.not_mem_nil, or_false] at hmem
          rcases hmem with h | h
          · exact absurd h (by simp)
          · rw [Request.updateItem.injEq] at h
            exact ⟨congrArg some h.1.symm, h.2.2⟩
  · cases cfm with
    | false => simp [salesDeleteRequests]
    | true =>
      simp only [salesDeleteRequests, if_true, List.mem_cons, List.not_mem_nil, or_false]
      rintro (h | h)
      · exact absurd h (by simp)
      · rw [Request.updateItem.injEq] at h
        exact absurd h.2.1 (by decide)
  · unfold inventoryDeleteRequests
    split_ifs <;> simp
  · intro hmem hid
    simp only [salesDeleteRequests, if_true, applyAll, List.foldl_cons,
      List.foldl_nil, applyRequest] at hmem
    obtain ⟨it₀, hit₀, rfl⟩ := List.mem_map.1 hmem
    by_cases hcase : it₀.id = sale.item_id
    · rw [if_pos hcase]
      exact ⟨rfl, rfl⟩
    · rw [if_neg hcase] at hid
      exact absurd hid hcase
  · intro hmem
    simp only [salesDeleteRequests, if_true, applyAll, List.foldl_cons,
      List.foldl_nil, applyRequest] at hmem
    have hcond := (List.mem_filter.1 hmem).2
    simpa using hcond

/-- C2 (witness): concrete creation and deletion runs. Creating a sale for
item "i1" issues the insert followed by the sold-status update, and after
both writes the stored item is sold with sold date 7; deleting the sale
issues the delete followed by the in-stock update, and after both writes
the stored item is in stock with no sold date. -/
theorem sale_status_lifecycle_witness :
    (addSaleRequests ⟨some "i1", 100, 3, none⟩ "s9" 7
        = [Request.insertSale ⟨"s9", "i1", 100, 3, none⟩,
           Request.updateItem "i1" "sold" (some 7)]) ∧
      ((⟨"i1", "m", "13", 7, 0, "sold", some 7, none⟩ : InventoryItem).status = "sold" ∧
        (⟨"i1", "m", "13", 7, 0, "sold", some 7, none⟩ : InventoryItem).sold_date = some 7) ∧
      (salesDeleteRequests ⟨"s1", "i1", 100, 3, none⟩ true
        = [Request.deleteSaleRow "s1", Request.updateItem "i1" "in_stock" none]) ∧
      ((⟨"i1", "m", "13", 7, 0, "in_stock", none, none⟩ : InventoryItem).status = "in_stock" ∧
        (⟨"i1", "m", "13", 7, 0, "in_stock", none, none⟩ : InventoryItem).sold_date = none) := by
  refine ⟨?_, ?_, ?_, ?_⟩
  · exact ((sale_status_lifecycle ⟨[⟨"i1", "m", "13", 7, 0, "in_stock", none, none⟩], []⟩
      ⟨some "i1", 100, 3, none⟩ "i1" "s9" 7 ⟨"s1", "i1", 100, 3, none⟩ true "r" none
      ⟨"i1", "m", "13", 7, 0, "sold", some 7, none⟩ ⟨"s1", "i1", 100, 3, none⟩).1
      rfl (by decide) (by norm_num)).1
  · exact ((sale_status_lifecycle ⟨[⟨"i1", "m", "13", 7, 0, "in_stock", none, none⟩], []⟩
      ⟨some "i1", 100, 3, none⟩ "i1" "s9" 7 ⟨"s1", "i1", 100, 3, none⟩ true "r" none
      ⟨"i1", "m", "13", 7, 0, "sold", some 7, none⟩ ⟨"s1", "i1", 100, 3, none⟩).1
      rfl (by decide) (by norm_num)).2
      (by simp +decide [addSaleRequests, applyAll, applyRequest]) rfl
  · exact (sale_status_lifecycle ⟨[⟨"i1", "m", "13", 7, 0, "sold", some 5, none⟩],
      [⟨"s1", "i1", 100, 3, none⟩]⟩
      ⟨some "i1", 100, 3, none⟩ "i1" "s9" 7 ⟨"s1", "i1", 100, 3, none⟩ true "r" none
      ⟨"i1", "m", "13", 7, 0, "in_stock", none, none⟩ ⟨"s1", "i1", 100, 3, none⟩).2.2.2.2.1
  · exact (sale_status_lifecycle ⟨[⟨"i1", "m", "13", 7, 0, "sold", some 5, none⟩],
      [⟨"s1", "i1", 100, 3, none⟩]⟩
      ⟨some "i1", 100, 3, none⟩ "i1" "s9" 7 ⟨"s1", "i1", 100, 3, none⟩ true "r" none
      ⟨"i1", "m", "13", 7, 0, "in_stock", none, none⟩ ⟨"s1", "i1", 100, 3, none⟩).2.2.2.2.2.1
      (by simp +decide [salesDeleteRequests, applyAll, applyRequest]) rfl

lemma lookupA_updateAssoc_self {α : Type} (l : List (String × α)) (k : String)
    (init : α) (f : α → α) :
    lookupA (updateAssoc l k init f) k = some (f ((lookupA l k).getD init)) := by
  induction l with
  | nil => simp [updateAssoc, lookupA]
  | cons kv rest ih =>
    obtain ⟨k₀, v⟩ := kv
    by_cases h : k₀ = k
    · simp [updateAssoc, lookupA, h]
    · simp [updateAssoc, lookupA, h, ih]

lemma customer_foldl_filter (l : List Sale) (acc : List (String × CustomerStats)) :
    (l.filter (fun x => x.customers.isSome)).foldl addCustomerSale acc
      = l.foldl addCustomerSale acc := by
  induction l generalizing acc with
  | nil => rfl
  | cons x t ih =>
    rw [List.foldl_cons]
    by_cases hx : x.customers.isSome = true
    · rw [@List.filter_cons_of_pos Sale (fun y => y.customers.isSome) x t hx,
        List.foldl_cons]
      exact ih _
    · have hc : x.customers = none := Option.not_isSome_iff_eq_none.mp hx
      have hstep : addCustomerSale acc x = acc := by simp [addCustomerSale, hc]
      rw [@List.filter_cons_of_neg Sale (fun y => y.customers.isSome) x t hx, hstep]
      exact ih acc

/-- C8: in the top-customers grouping, a sale with no joined customer is
excluded entirely (filtering such sales away changes nothing), and a sale
with a joined customer but a missing joined item is counted: it adds one
purchase and its full sale price to that customer's group while adding
exactly zero profit. -/
theorem getTopCustomers_missing_handling (sales : List Sale) (s : Sale) (c : Customer) :
    getTopCustomers (sales.filter (fun x => x.customers.isSome)) = getTopCustomers sales ∧
      (s.customers = none → customerStatsList (sales ++ [s]) = customerStatsList sales) ∧
      (s.customers = some c → s.inventory_items = none →
        (custGroup (sales ++ [s]) c.name).purchases = (custGroup sales c.name).purchases + 1 ∧
          (custGroup (sales ++ [s]) c.name).spent = (custGroup sales c.name).spent + s.sale_price ∧
          (custGroup (sales ++ [s]) c.name).profit = (custGroup sales c.name).profit) := by
  refine ⟨?_, ?_, ?_⟩
  · show (((customerStatsList (sales.filter (fun x => x.customers.isSome))).mergeSort
        (fun a b => decide (b.2.profit ≤ a.2.profit))).take 5) = _
    rw [show customerStatsList (sales.filter (fun x => x.customers.isSome))
        = customerStatsList sales from customer_foldl_filter sales []]
    rfl
  · intro h
    show (sales ++ [s]).foldl addCustomerSale [] = sales.foldl addCustomerSale []
    rw [List.foldl_append, List.foldl_cons, List.foldl_nil]
    simp [addCustomerSale, h]
  · intro hc hi
    have hL : customerStatsList (sales ++ [s])
        = addCustomerSale (customerStatsList sales) s := by
      show (sales ++ [s]).foldl addCustomerSale [] = _
      rw [List.foldl_append, List.foldl_cons, List.foldl_nil]
      rfl
    refine ⟨?_, ?_, ?_⟩ <;>
    · rw [custGroup, custGroup, hL]
      simp only [addCustomerSale, hc, hi]
      rw [lookupA_updateAssoc_self]
      cases hE : lookupA (customerStatsList sales) c.name <;> simp [hE]

/-- C8 (witness): a single sale with customer "Ada" and a missing joined
item creates Ada's group with one purchase, the full price 250 spent, and
zero added profit. -/
theorem getTopCustomers_missing_handling_witness :
    (custGroup [⟨"s1", "i1", 250, 9, none, some ⟨"c1", "Ada"⟩⟩] "Ada").purchases
        = (custGroup ([] : List Sale) "Ada").purchases + 1 ∧
      (custGroup [⟨"s1", "i1", 250, 9, none, some ⟨"c1", "Ada"⟩⟩] "Ada").spent
        = (custGroup ([] : List Sale) "Ada").spent + 250 ∧
      (custGroup [⟨"s1", "i1", 250, 9, none, some ⟨"c1", "Ada"⟩⟩] "Ada").profit
        = (custGroup ([] : List Sale) "Ada").profit :=
  (getTopCustomers_missing_handling [] ⟨"s1", "i1", 250, 9, none, some ⟨"c1", "Ada"⟩⟩
    ⟨"c1", "Ada"⟩).2.2 rfl rfl

lemma addCustomerSale_mapCustomer (f : Customer → Customer)
    (hf : ∀ c, (f c).name = c.name) (acc : List (String × CustomerStats)) (s : Sale) :
    addCustomerSale acc (mapSaleCustomer f s) = addCustomerSale acc s := by
  cases hc : s.customers with
  | none => simp [addCustomerSale, mapSaleCustomer, hc]
  | some c => simp [addCustomerSale, mapSaleCustomer, hc, hf]

lemma customerStatsList_map (f : Customer → Customer)
    (hf : ∀ c, (f c).name = c.name) (sales : List Sale) :
    customerStatsList (sales.map (mapSaleCustomer f)) = customerStatsList sales := by
  show (sales.map (mapSaleCustomer f)).foldl addCustomerSale []
    = sales.foldl addCustomerSale []
  rw [List.foldl_map]
  exact List.foldl_ext _ _ [] (fun acc x _ => addCustomerSale_mapCustomer f hf acc x)

lemma addSupplierSale_mapSupplier (g : Supplier → Supplier)
    (hg : ∀ p, (g p).supplier_name = p.supplier_name)
    (acc : List (String × SupplierStats)) (s : Sale) :
    addSupplierSale acc (mapSaleSupplier g s) = addSupplierSale acc s := by
  cases hi : s.inventory_items with
  | none => simp [addSupplierSale, mapSaleSupplier, hi]
  | some item =>
    cases hp : item.suppliers with
    | none => simp [addSupplierSale, mapSaleSupplier, hi, hp]
    | some p => simp [addSupplierSale, mapSaleSupplier, hi, hp, hg]

lemma supplierStatsList_map (g : Supplier → Supplier)
    (hg : ∀ p, (g p).supplier_name = p.supplier_name) (sales : List Sale) :
    supplierStatsList (sales.map (mapSaleSupplier g)) = supplierStatsList sales := by
  show (sales.map (mapSaleSupplier g)).foldl addSupplierSale []
    = sales.foldl addSupplierSale []
  rw [List.foldl_map]
  exact List.foldl_ext _ _ [] (fun acc x _ => addSupplierSale_mapSupplier g hg acc x)

/-- C10: the top-customers and top-suppliers groupings depend on the
customer and supplier records only through their display-name strings:
rewriting every referenced record in any name-preserving way leaves both
results unchanged, and two sales referencing distinct records with equal
names accumulate into one single group entry holding both sales. -/
theorem grouping_keys_by_display_name (f : Customer → Customer)
    (g : Supplier → Supplier) (sales : List Sale) (s₁ s₂ : Sale)
    (c₁ c₂ : Customer) (i₁ i₂ : InventoryItem) (p₁ p₂ : Supplier)
    (hf : ∀ c, (f c).name = c.name)
    (hg : ∀ p, (g p).supplier_name = p.supplier_name) :
    getTopCustomers (sales.map (mapSaleCustomer f)) = getTopCustomers sales ∧
      getTopSuppliersByProfit (sales.map (mapSaleSupplier g)) = getTopSuppliersByProfit sales ∧
      (s₁.customers = some c₁ → s₂.customers = some c₂ → c₁.name = c₂.name →
        (customerStatsList [s₁, s₂]).length = 1 ∧
          (custGroup [s₁, s₂] c₁.name).purchases = 2) ∧
      (s₁.inventory_items = some i₁ → i₁.suppliers = some p₁ →
        s₂.inventory_items = some i₂ → i₂.suppliers = some p₂ →
        p₁.supplier_name = p₂.supplier_name →
        (supplierStatsList [s₁, s₂]).length = 1 ∧
          (suppGroup [s₁, s₂] p₁.supplier_name).units = 2) := by
  refine ⟨?_, ?_, ?_, ?_⟩
  · simp only [getTopCustomers, customerStatsList_map f hf]
  · simp only [getTopSuppliersByProfit, supplierStatsList_map g hg]
  · intro h1 h2 hn
    constructor
    · simp [customerStatsList, addCustomerSale, h1, h2, updateAssoc, ← hn]
    · simp [custGroup, customerStatsList, addCustomerSale, h1, h2, updateAssoc,
        lookupA, ← hn]
  · intro h1 hp1 h2 hp2 hn
    constructor
    · simp [supplierStatsList, addSupplierSale, h1, hp1, h2, hp2, updateAssoc, ← hn]
    · simp [suppGroup, supplierStatsList, addSupplierSale, h1, hp1, h2, hp2,
        updateAssoc, lookupA, ← hn]

/-- C10 (witness): concrete name-preserving rewrites of the referenced
records leave the groupings unchanged, and two sales referencing distinct
customer records (ids "c1", "c2") named "Ada" and distinct supplier
records (ids "p1", "p2") named "Acme" each collapse into one group of
two. -/
theorem grouping_keys_by_display_name_witness :
    getTopCustomers ([⟨"s1", "i1", 250, 9,
          some ⟨"i1", "m", "13", 100, 0, "sold", none, some ⟨"p1", "Acme"⟩⟩,
          some ⟨"c1", "Ada"⟩⟩].map (mapSaleCustomer (fun c => ⟨"x", c.name⟩)))
        = getTopCustomers [⟨"s1", "i1", 250, 9,
          some ⟨"i1", "m", "13", 100, 0, "sold", none, some ⟨"p1", "Acme"⟩⟩,
          some ⟨"c1", "Ada"⟩⟩] ∧
      getTopSuppliersByProfit ([⟨"s1", "i1", 250, 9,
          some ⟨"i1", "m", "13", 100, 0, "sold", none, some ⟨"p1", "Acme"⟩⟩,
          some ⟨"c1", "Ada"⟩⟩].map (mapSaleSupplier (fun p => ⟨"y", p.supplier_name⟩)))
        = getTopSuppliersByProfit [⟨"s1", "i1", 250, 9,
          some ⟨"i1", "m", "13", 100, 0, "sold", none, some ⟨"p1", "Acme"⟩⟩,
          some ⟨"c1", "Ada"⟩⟩] ∧
      (customerStatsList [⟨"s1", "i1", 250, 9,
          some ⟨"i1", "m", "13", 100, 0, "sold", none, some ⟨"p1", "Acme"⟩⟩,
          some ⟨"c1", "Ada"⟩⟩,
        ⟨"s2", "i2", 300, 10,
          some ⟨"i2", "m", "13", 100, 0, "sold", none, some ⟨"p2", "Acme"⟩⟩,
          some ⟨"c2", "Ada"⟩⟩]).length = 1 ∧
      (custGroup [⟨"s1", "i1", 250, 9,
          some ⟨"i1", "m", "13", 100, 0, "sold", none, some ⟨"p1", "Acme"⟩⟩,
          some ⟨"c1", "Ada"⟩⟩,
        ⟨"s2", "i2", 300, 10,
          some ⟨"i2", "m", "13", 100, 0, "sold", none, some ⟨"p2", "Acme"⟩⟩,
          some ⟨"c2", "Ada"⟩⟩] "Ada").purchases = 2 ∧
      (supplierStatsList [⟨"s1", "i1", 250, 9,
          some ⟨"i1", "m", "13", 100, 0, "sold", none, some ⟨"p1", "Acme"⟩⟩,
          some ⟨"c1", "Ada"⟩⟩,
        ⟨"s2", "i2", 300, 10,
          some ⟨"i2", "m", "13", 100, 0, "sold", none, some ⟨"p2", "Acme"⟩⟩,
          some ⟨"c2", "Ada"⟩⟩]).length = 1 ∧
      (suppGroup [⟨"s1", "i1", 250, 9,
          some ⟨"i1", "m", "13", 100, 0, "sold", none, some ⟨"p1", "Acme"⟩⟩,
          some ⟨"c1", "Ada"⟩⟩,
        ⟨"s2", "i2", 300, 10,
          some ⟨"i2", "m", "13", 100, 0, "sold", none, some ⟨"p2", "Acme"⟩⟩,
          some ⟨"c2", "Ada"⟩⟩] "Acme").units = 2 := by
  have T := grouping_keys_by_display_name (fun c => ⟨"x", c.name⟩)
    (fun p => ⟨"y", p.supplier_name⟩)
    [⟨"s1", "i1", 250, 9,
        some ⟨"i1", "m", "13", 100, 0, "sold", none, some ⟨"p1", "Acme"⟩⟩,
        some ⟨"c1", "Ada"⟩⟩]
    ⟨"s1", "i1", 250, 9,
        some ⟨"i1", "m", "13", 100, 0, "sold", none, some ⟨"p1", "Acme"⟩⟩,
        some ⟨"c1", "Ada"⟩⟩
    ⟨"s2", "i2", 300, 10,
        some ⟨"i2", "m", "13", 100, 0, "sold", none, some ⟨"p2", "Acme"⟩⟩,
        some ⟨"c2", "Ada"⟩⟩
    ⟨"c1", "Ada"⟩ ⟨"c2", "Ada"⟩
    ⟨"i1", "m", "13", 100, 0, "sold", none, some ⟨"p1", "Acme"⟩⟩
    ⟨"i2", "m", "13", 100, 0, "sold", none, some ⟨"p2", "Acme"⟩⟩
    ⟨"p1", "Acme"⟩ ⟨"p2", "Acme"⟩ (fun c => rfl) (fun p => rfl)
  exact ⟨T.1, T.2.1, (T.2.2.1 rfl rfl rfl).1, (T.2.2.1 rfl rfl rfl).2,
    (T.2.2.2 rfl rfl rfl rfl rfl).1, (T.2.2.2 rfl rfl rfl rfl rfl).2⟩
